import Mathlib

/-!
Shallow embedding of the Mira Attendance repository (TypeScript) and proofs
about its specification claims.

The embedding follows the source files:
* `src/services.ts`   — client-side service functions (login, users,
  attendance, applications, the CogniCraft AI wrapper),
* `api/users.ts`, `api/attendance.ts` and the unnamed duplicate revisions —
  the Vercel serverless handlers backed by Mongoose models.

JavaScript numbers are modelled as real numbers, fallible code as `Except`,
and the Mongo document store as an explicit list of records threaded through
each handler.  Fields whose JavaScript value may be `undefined` are modelled
as `Option`; JS truthiness of a string field (`if (x)`) is "present and
non-empty".
-/

/-! ### Geometry: `getDistanceInKm` (services.ts lines 258-265) -/

/-- JavaScript's `Math.atan2(y, x)` on finite inputs. -/
noncomputable def atan2 (y x : ℝ) : ℝ :=
  if 0 < x then Real.arctan (y / x)
  else if x < 0 then
    (if 0 ≤ y then Real.arctan (y / x) + Real.pi else Real.arctan (y / x) - Real.pi)
  else
    (if 0 < y then Real.pi / 2 else if y < 0 then -(Real.pi / 2) else 0)

/-- `getDistanceInKm` from services.ts: haversine distance, Earth radius 6371 km,
degree arguments converted to radians with `Math.PI / 180`. -/
noncomputable def getDistanceInKm (lat1 lon1 lat2 lon2 : ℝ) : ℝ :=
  let R : ℝ := 6371
  let dLat := (lat2 - lat1) * (Real.pi / 180)
  let dLon := (lon2 - lon1) * (Real.pi / 180)
  let a := Real.sin (dLat / 2) * Real.sin (dLat / 2) +
    Real.cos (lat1 * (Real.pi / 180)) * Real.cos (lat2 * (Real.pi / 180)) *
      Real.sin (dLon / 2) * Real.sin (dLon / 2)
  let c := 2 * atan2 (Real.sqrt a) (Real.sqrt (1 - a))
  R * c

/-- The spec's haversine formula, written from its words: distance equals
`R * c` with `R = 6371`, `c = 2*atan2(sqrt a, sqrt (1-a))` and
`a = sin²(dLat/2) + cos lat1 * cos lat2 * sin²(dLon/2)`, angles in radians. -/
noncomputable def haversineSpec (lat1 lon1 lat2 lon2 : ℝ) : ℝ :=
  let dLat := (lat2 - lat1) * (Real.pi / 180)
  let dLon := (lon2 - lon1) * (Real.pi / 180)
  let a := Real.sin (dLat / 2) ^ 2 +
    Real.cos (lat1 * (Real.pi / 180)) * Real.cos (lat2 * (Real.pi / 180)) *
      Real.sin (dLon / 2) ^ 2
  6371 * (2 * atan2 (Real.sqrt a) (Real.sqrt (1 - a)))

lemma hav_eq_of (A B : ℝ) (h : A = B) :
    6371 * (2 * atan2 (Real.sqrt A) (Real.sqrt (1 - A))) =
      6371 * (2 * atan2 (Real.sqrt B) (Real.sqrt (1 - B))) := by
  rw [h]

lemma atan2_zero_one : atan2 0 1 = 0 := by
  unfold atan2
  rw [if_pos one_pos]
  simp

/-! ### Campus constants and geofence classification
(services.ts lines 267-290, the location block of `markAttendance`) -/

noncomputable def CAMPUS_LAT : ℝ := 18.4550
noncomputable def CAMPUS_LON : ℝ := 79.5217
noncomputable def CAMPUS_RADIUS_KM : ℝ := 0.5

/-- Location sub-record of an attendance payload.  The source formats
`coordinates` as a `"lat, lon"` string with `toFixed(4)`; decimal formatting
of floats is kept as the raw pair here. -/
structure LocationInfo where
  status : String
  coordinates : Option (ℝ × ℝ)
  distance_km : Option ℝ

/-- The location computation inside `markAttendance` (services.ts 280-290):
status starts `'Off-Campus'`; when coordinates are given the haversine
distance to campus is computed and status becomes `'On-Campus'` iff the
distance is `≤ CAMPUS_RADIUS_KM`. -/
noncomputable def locationOf (coords : Option (ℝ × ℝ)) : LocationInfo :=
  match coords with
  | none => { status := "Off-Campus", coordinates := none, distance_km := none }
  | some (la, lo) =>
      let d := getDistanceInKm la lo CAMPUS_LAT CAMPUS_LON
      { status := if d ≤ CAMPUS_RADIUS_KM then "On-Campus" else "Off-Campus"
        coordinates := some (la, lo)
        distance_km := some d }

/-- C7: `getDistanceInKm` is the haversine great-circle distance with Earth
radius 6371 km exactly as the spec's formula states it; it is symmetric in
its two points, and zero when the two points coincide. -/
theorem getDistanceInKm_haversine_symm_zero (lat1 lon1 lat2 lon2 : ℝ) :
    getDistanceInKm lat1 lon1 lat2 lon2 = haversineSpec lat1 lon1 lat2 lon2 ∧
    getDistanceInKm lat1 lon1 lat2 lon2 = getDistanceInKm lat2 lon2 lat1 lon1 ∧
    getDistanceInKm lat1 lon1 lat1 lon1 = 0 := by
  refine ⟨?_, ?_, ?_⟩
  · show (6371 : ℝ) * _ = 6371 * _
    exact hav_eq_of _ _ (by ring)
  · show (6371 : ℝ) * _ = 6371 * _
    refine hav_eq_of _ _ ?_
    have e1 : (lat1 - lat2) * (Real.pi / 180) / 2 =
        -((lat2 - lat1) * (Real.pi / 180) / 2) := by ring
    have e2 : (lon1 - lon2) * (Real.pi / 180) / 2 =
        -((lon2 - lon1) * (Real.pi / 180) / 2) := by ring
    rw [e2, e1, Real.sin_neg, Real.sin_neg]
    ring
  · show (6371 : ℝ) * _ = 0
    have e0 : (lat1 - lat1) * (Real.pi / 180) / 2 = 0 := by ring
    have e0' : (lon1 - lon1) * (Real.pi / 180) / 2 = 0 := by ring
    rw [e0, e0', Real.sin_zero]
    norm_num [atan2_zero_one]

/-- C3: with coordinates supplied, `location.status` is `'On-Campus'` iff the
computed distance is `≤ CAMPUS_RADIUS_KM` (the boundary counts as within),
and `'Off-Campus'` otherwise; with `null` coordinates the status is
`'Off-Campus'` and no distance is recorded; and the radius is 0.5 km. -/
theorem locationOf_boundary (la lo : ℝ) :
    ((locationOf (some (la, lo))).status = "On-Campus" ↔
      getDistanceInKm la lo CAMPUS_LAT CAMPUS_LON ≤ CAMPUS_RADIUS_KM) ∧
    ((locationOf (some (la, lo))).status = "Off-Campus" ↔
      ¬ getDistanceInKm la lo CAMPUS_LAT CAMPUS_LON ≤ CAMPUS_RADIUS_KM) ∧
    (locationOf none).status = "Off-Campus" ∧
    (locationOf none).distance_km = none ∧
    CAMPUS_RADIUS_KM = 0.5 := by
  refine ⟨?_, ?_, rfl, rfl, rfl⟩ <;>
    · simp only [locationOf]
      split_ifs with h <;> simp [h]

/-- Witness for `locationOf_boundary` at a concrete point. -/
theorem locationOf_boundary_witness :
    ((locationOf (some (0, 0))).status = "On-Campus" ↔
      getDistanceInKm 0 0 CAMPUS_LAT CAMPUS_LON ≤ CAMPUS_RADIUS_KM) ∧
    (locationOf none).status = "Off-Campus" := by
  exact ⟨(locationOf_boundary 0 0).1, (locationOf_boundary 0 0).2.2.1⟩

/-! ### HTTP responses, `handleApiError` and `safeFetch`
(services.ts lines 47-76) -/

/-- A parsed JSON object as the client reads it: the string fields `error`
and `message` that `handleApiError` inspects, and the `access_revoked` /
`role` fields that `login` inspects, each possibly absent. -/
structure JObj where
  error : Option String
  message : Option String
  role : Option String
  access_revoked : Bool
deriving DecidableEq

/-- Outcome of `response.json()`: the parse may throw, or yield the falsy
value `null`, or yield a (truthy) object. -/
inductive BodyVal where
  | parseFail
  | jnull
  | jobj (o : JObj)
deriving DecidableEq

/-- An HTTP response as the client sees it. -/
structure Resp where
  status : Nat
  statusText : String
  body : BodyVal
deriving DecidableEq

/-- `Response.ok`: status in the 2xx range. -/
def respOk (r : Resp) : Bool := 200 ≤ r.status && r.status < 300

/-- JS truthiness of a possibly-absent string field: present and non-empty. -/
def truthyStr : Option String → Bool
  | some s => s ≠ ""
  | none => false

/-- The error message assembled by `handleApiError` for a non-ok response:
default `Error {status}: {statusText}`, replaced by the body's truthy
`error` field, else its truthy `message` field, when the body parses to a
truthy value. -/
def errorMessageOf (r : Resp) : String :=
  let deflt := "Error " ++ toString r.status ++ ": " ++ r.statusText
  match r.body with
  | BodyVal.jobj o =>
      if truthyStr o.error then o.error.getD deflt
      else if truthyStr o.message then o.message.getD deflt
      else deflt
  | _ => deflt

/-- `handleApiError` (services.ts 47-62): throws on a non-ok response with
the message above; on an ok response returns the parsed body (a failing
`response.json()` on an ok response throws the parse error). -/
def handleApiError (r : Resp) : Except String BodyVal :=
  if respOk r then
    match r.body with
    | BodyVal.parseFail => Except.error "Unexpected end of JSON input"
    | b => Except.ok b
  else Except.error (errorMessageOf r)

/-- What a single `fetch` attempt comes back with: a network-level rejection
(with a flag for `TypeError: Failed to fetch`) or an HTTP response. -/
inductive FetchOutcome where
  | netErr (failedToFetch : Bool) (msg : String)
  | resp (r : Resp)

/-- `safeFetch` (services.ts 65-76): one fetch, `handleApiError` applied to
the response; a network `Failed to fetch` TypeError is replaced by the
connectivity message, every other error is rethrown unchanged. -/
def safeFetch : FetchOutcome → Except String BodyVal
  | FetchOutcome.netErr true _ =>
      Except.error "Unable to connect to the server. Please check your internet connection."
  | FetchOutcome.netErr false m => Except.error m
  | FetchOutcome.resp r => handleApiError r

/-- `safeFetch` against the list of outcomes successive requests would see:
the body issues a single `fetch`, so exactly the first outcome is consumed.
The second component counts requests issued. -/
def safeFetchRuns (attempts : List FetchOutcome) : Except String BodyVal × Nat :=
  match attempts with
  | [] => (Except.error "no request issued", 0)
  | f :: _ => (safeFetch f, 1)

/-! ### `login` (services.ts lines 128-153) -/

/-- `Role.SUPER_ADMIN` of the frontend enum (`types.ts`, not part of the
sources; the spec and the code use the role only as an opaque tag). -/
def ROLE_SUPER_ADMIN : String := "SUPER_ADMIN"

inductive LoginResult where
  | nullRes
  | userRes (o : JObj)
  | otpRes (o : JObj)
deriving DecidableEq

/-- `login`: a 401 yields `null` without throwing; other non-ok responses
throw via `handleApiError`; a truthy user with `access_revoked` throws
`Access revoked for this user.`; a `SUPER_ADMIN` yields the OTP-required
result; any other truthy user is returned; a falsy body yields `null`.
Network `Failed to fetch` is replaced by the connectivity message. -/
def login : FetchOutcome → Except String LoginResult
  | FetchOutcome.netErr true _ =>
      Except.error "Unable to connect to the server. Please check your internet connection."
  | FetchOutcome.netErr false m => Except.error m
  | FetchOutcome.resp r =>
      if r.status = 401 then Except.ok LoginResult.nullRes
      else
        match handleApiError r with
        | Except.error e => Except.error e
        | Except.ok (BodyVal.jobj o) =>
            if o.access_revoked then Except.error "Access revoked for this user."
            else if o.role = some ROLE_SUPER_ADMIN then Except.ok (LoginResult.otpRes o)
            else Except.ok (LoginResult.userRes o)
        | Except.ok _ => Except.ok LoginResult.nullRes

/-! ### Users: frontend user objects and tenancy
(services.ts lines 118-123, 192-227) -/

/-- A user document as the backend stores it and the frontend receives it
(`src/models/User.ts` fields that the modelled operations read). -/
structure SUser where
  id : String
  pin : String
  name : String
  role : String
  college_code : Option String
  imageUrl : Option String
  access_revoked : Bool
deriving DecidableEq

/-- `applyTenantFilter` (services.ts 118-123): non-`SUPER_ADMIN` users with a
truthy `college_code` see only items of their college. -/
def applyTenantFilter (items : List SUser) (currentUser : SUser) : List SUser :=
  match currentUser.college_code with
  | some c =>
      if currentUser.role ≠ ROLE_SUPER_ADMIN ∧ c ≠ "" then
        items.filter (fun u => u.college_code = some c)
      else items
  | none => items

/-- Responses of the users API handlers: an HTTP status and the `message`
field of the JSON body (empty when the handler sends none). -/
structure URes where
  status : Nat
  message : String
deriving DecidableEq

/-! ### The deployed users handler `api/users.ts`, PUT branch
(used by `updateUser`, which requests `PUT /api/users?id=...`). -/

/-- `api/users.ts` PUT: requires the `pin` query parameter; without it the
handler responds 400 `pin required` and touches nothing.  (The with-pin
branch updates the first document matching the pin; `updateUser` never
reaches it, since it only ever sends an `id` parameter.) -/
def usersApiPut (store : List SUser) (pinParam : Option String) (body : SUser) :
    List SUser × URes :=
  match pinParam with
  | none => (store, { status := 400, message := "pin required" })
  | some p =>
      match store.find? (fun u => u.pin = p) with
      | none => (store, { status := 404, message := "Not found" })
      | some _ =>
          (store.map (fun u => if u.pin = p then body else u),
           { status := 200, message := "" })

/-- `updateUser` (services.ts 208-214): `PUT /api/users?id=${id}` through
`safeFetch` — the query string carries `id`, never `pin`, so the handler
sees no pin parameter; a non-ok response makes `safeFetch` throw the body's
message. -/
def updateUser (store : List SUser) (body : SUser) :
    List SUser × Except String Unit :=
  let (store2, res) := usersApiPut store none body
  if 200 ≤ res.status ∧ res.status < 300 then (store2, Except.ok ())
  else (store2, Except.error res.message)

/-- `deleteUser` (services.ts 216-227): with `forceHardDelete = false` it
fetches the (tenant-filtered) users, finds the target by id, and calls
`updateUser` with `access_revoked` toggled, returning `success: true`;
if the user is not found, or `forceHardDelete = true`, it returns
`success: false`.  The `Bool` is the `success` flag; errors from
`updateUser` propagate. -/
def deleteUser (store : List SUser) (currentUser : SUser) (id : String)
    (forceHardDelete : Bool) : List SUser × Except String Bool :=
  if forceHardDelete then (store, Except.ok false)
  else
    match (applyTenantFilter store currentUser).find? (fun u => u.id = id) with
    | none => (store, Except.ok false)
    | some u =>
        let (store2, r) := updateUser store { u with access_revoked := ¬ u.access_revoked }
        match r with
        | Except.ok _ => (store2, Except.ok true)
        | Except.error m => (store2, Except.error m)

/-! ### The users handler revision with the duplicate-pin check
(`src/unnamed/part_002`, claim C4) and the pin-uniqueness invariant. -/

/-- A stored user document of the part_002 handler's model: `name`, `pin`
and `role` required, `email` and `avatar` optional (`_id` elided). -/
structure DbUser where
  name : String
  pin : String
  role : String
  email : Option String
  avatar : Option String
deriving DecidableEq

/-- POST body: absent and empty string fields are both falsy for the
required-field check, so they are modelled as plain strings. -/
structure UPostBody where
  name : String
  pin : String
  role : String
  email : Option String
  avatar : Option String
deriving DecidableEq

/-- PUT body: a partial update, applied as a Mongo `$set`. -/
structure UPutBody where
  name : Option String
  pin : Option String
  role : Option String
  email : Option String
  avatar : Option String
deriving DecidableEq

/-- The role enum of the part_002 `UserSchema`; `User.create` validates it. -/
def roleValid (r : String) : Bool :=
  r = "SuperAdmin" ∨ r = "Principal" ∨ r = "HOD" ∨ r = "Faculty" ∨
    r = "Staff" ∨ r = "Student"

/-- Mongoose `$set` of a PUT body onto a stored document (update validators
are not run by `findOneAndUpdate` by default, so the role enum is not
re-checked here). -/
def applySet (u : DbUser) (b : UPutBody) : DbUser :=
  { name := b.name.getD u.name
    pin := b.pin.getD u.pin
    role := b.role.getD u.role
    email := match b.email with | some e => some e | none => u.email
    avatar := match b.avatar with | some a => some a | none => u.avatar }

/-- Replace the first document whose pin is `p` by `v` (what
`findOneAndUpdate({ pin }, body)` writes). -/
def replaceFirstPin : List DbUser → String → DbUser → List DbUser
  | [], _, _ => []
  | u :: rest, p, v =>
      if u.pin = p then v :: rest else u :: replaceFirstPin rest p v

/-- One request to the part_002 users handler. -/
inductive UsersOp where
  | get (pin : Option String)
  | post (body : UPostBody)
  | put (pin : Option String) (body : UPutBody)
  | del (pin : Option String)

/-- The part_002 users handler, one request against the stored documents.
POST: 400 on a missing required field, 409 `User already exists` on a
duplicate pin, 500 on a role outside the schema enum (Mongoose
`ValidationError` reaches the catch-all), else insert and 201.
PUT: 400 without a pin parameter, 404 when no document matches; the unique
index on `pin` rejects an update that would give the document a pin another
document already has (duplicate-key error, caught as 500); otherwise the
body is `$set` onto the matched document.
DELETE: removes the matched document, 404 when none matches. -/
def usersStep (store : List DbUser) : UsersOp → List DbUser × URes
  | UsersOp.get _ => (store, { status := 200, message := "" })
  | UsersOp.post b =>
      if b.name = "" ∨ b.pin = "" ∨ b.role = "" then
        (store, { status := 400, message := "name, pin, and role are required" })
      else if store.any (fun u => u.pin = b.pin) then
        (store, { status := 409, message := "User already exists" })
      else if ¬ roleValid b.role then
        (store, { status := 500, message := "Internal server error" })
      else
        (store ++ [{ name := b.name, pin := b.pin, role := b.role,
                     email := b.email, avatar := b.avatar }],
         { status := 201, message := "" })
  | UsersOp.put pinParam b =>
      match pinParam with
      | none => (store, { status := 400, message := "pin is required" })
      | some p =>
          match store.find? (fun u => u.pin = p) with
          | none => (store, { status := 404, message := "User not found" })
          | some u =>
              let v := applySet u b
              if v.pin ≠ u.pin ∧ store.any (fun w => w.pin = v.pin) then
                (store, { status := 500, message := "Internal server error" })
              else
                (replaceFirstPin store p v, { status := 200, message := "" })
  | UsersOp.del pinParam =>
      match pinParam with
      | none => (store, { status := 400, message := "pin is required" })
      | some p =>
          if store.any (fun u => u.pin = p) then
            (store.eraseP (fun u => u.pin = p),
             { status := 200, message := "User deleted successfully" })
          else (store, { status := 404, message := "User not found" })

/-- A sequence of requests, threading the store. -/
def usersRun (store : List DbUser) (ops : List UsersOp) : List DbUser :=
  ops.foldl (fun s op => (usersStep s op).1) store

/-- No two stored users share a pin. -/
def pinsNodup (store : List DbUser) : Prop := (store.map DbUser.pin).Nodup

instance (store : List DbUser) : Decidable (pinsNodup store) := by
  unfold pinsNodup; infer_instance

/-! ### Pin uniqueness is preserved by the part_002 users handler. -/

lemma pin_mem_of_any {store : List DbUser} {p : String}
    (h : store.any (fun u => u.pin = p) = true) : p ∈ store.map DbUser.pin := by
  rcases List.any_eq_true.1 h with ⟨u, hu, hup⟩
  exact List.mem_map.2 ⟨u, hu, (of_decide_eq_true hup).symm ▸ rfl⟩

lemma pin_not_mem_of_any_false {store : List DbUser} {p : String}
    (h : ¬ store.any (fun u => u.pin = p) = true) : p ∉ store.map DbUser.pin := by
  intro hmem
  rcases List.mem_map.1 hmem with ⟨u, hu, hup⟩
  exact h (List.any_eq_true.2 ⟨u, hu, decide_eq_true hup⟩)

lemma map_pin_replaceFirstPin_self (l : List DbUser) (p : String) (v : DbUser)
    (hv : v.pin = p) :
    (replaceFirstPin l p v).map DbUser.pin = l.map DbUser.pin := by
  induction l with
  | nil => rfl
  | cons x xs ih =>
      by_cases hx : x.pin = p
      · simp [replaceFirstPin, hx, hv]
      · simp [replaceFirstPin, hx, ih]

lemma mem_map_pin_replaceFirstPin {l : List DbUser} {p : String} {v : DbUser}
    {y : String} (h : y ∈ (replaceFirstPin l p v).map DbUser.pin) :
    y ∈ l.map DbUser.pin ∨ y = v.pin := by
  induction l with
  | nil => simp [replaceFirstPin] at h
  | cons x xs ih =>
      by_cases hx : x.pin = p
      · simp only [replaceFirstPin, if_pos hx, List.map_cons, List.mem_cons] at h
        rcases h with h | h
        · exact Or.inr h
        · exact Or.inl (List.mem_cons_of_mem _ h)
      · simp only [replaceFirstPin, if_neg hx, List.map_cons, List.mem_cons] at h
        rcases h with h | h
        · exact Or.inl (by simp [h])
        · rcases ih h with h' | h'
          · exact Or.inl (List.mem_cons_of_mem _ h')
          · exact Or.inr h'

lemma nodup_replaceFirstPin_fresh {l : List DbUser} {p : String} {v : DbUser}
    (hnd : (l.map DbUser.pin).Nodup) (hv : v.pin ∉ l.map DbUser.pin) :
    ((replaceFirstPin l p v).map DbUser.pin).Nodup := by
  induction l with
  | nil => simp [replaceFirstPin]
  | cons x xs ih =>
      simp only [List.map_cons, List.nodup_cons] at hnd
      have hvx : v.pin ≠ x.pin := fun h => hv (by simp [h])
      have hvxs : v.pin ∉ xs.map DbUser.pin := fun h => hv (by simp [h])
      by_cases hx : x.pin = p
      · simp only [replaceFirstPin, if_pos hx, List.map_cons, List.nodup_cons]
        exact ⟨hvxs, hnd.2⟩
      · simp only [replaceFirstPin, if_neg hx, List.map_cons, List.nodup_cons]
        refine ⟨fun hmem => ?_, ih hnd.2 hvxs⟩
        rcases mem_map_pin_replaceFirstPin hmem with h' | h'
        · exact hnd.1 h'
        · exact hvx h'.symm

lemma pinsNodup_usersStep (store : List DbUser) (op : UsersOp)
    (h : pinsNodup store) : pinsNodup (usersStep store op).1 := by
  cases op with
  | get _ => exact h
  | post b =>
      simp only [usersStep]
      split_ifs with h1 h2 h3
      any_goals exact h
      have hb : b.pin ∉ store.map DbUser.pin := pin_not_mem_of_any_false h2
      show pinsNodup (store ++ [_])
      unfold pinsNodup at h ⊢
      simp only [List.map_append, List.map_cons, List.map_nil]
      rw [List.nodup_append]
      exact ⟨h, List.nodup_singleton _, by
        intro a ha hb'
        simp only [List.mem_singleton] at hb'
        exact hb (hb' ▸ ha)⟩
  | put pinParam b =>
      cases pinParam with
      | none => exact h
      | some p =>
          simp only [usersStep]
          cases hf : store.find? (fun u => u.pin = p) with
          | none => exact h
          | some u =>
              have hfind := List.find?_some hf
              have hup : u.pin = p := by simpa using hfind
              dsimp only
              split_ifs with hc
              · exact h
              · show pinsNodup (replaceFirstPin store p (applySet u b))
                unfold pinsNodup at h ⊢
                rcases not_and_or.1 hc with hc' | hc'
                · have hvp : (applySet u b).pin = p := (not_not.1 hc') ▸ hup
                  rw [map_pin_replaceFirstPin_self _ _ _ hvp]
                  exact h
                · exact nodup_replaceFirstPin_fresh h (pin_not_mem_of_any_false hc')
  | del pinParam =>
      cases pinParam with
      | none => exact h
      | some p =>
          simp only [usersStep]
          split_ifs with hc
          · exact List.Nodup.sublist ((List.eraseP_sublist store).map DbUser.pin) h
          · exact h

lemma pinsNodup_usersRun (store : List DbUser) (ops : List UsersOp)
    (h : pinsNodup store) : pinsNodup (usersRun store ops) := by
  induction ops generalizing store with
  | nil => exact h
  | cons op rest ih => exact ih _ (pinsNodup_usersStep store op h)

/-- C4 (amended): for a POST whose required fields `name`, `pin`, `role` are
present, the handler responds 409 `User already exists` and inserts nothing
when a stored user already has the requested pin; and starting from a store
with pairwise-distinct pins, any sequence of GET/POST/PUT/DELETE requests
leaves the pins pairwise distinct. -/
theorem usersApi_pin_unique (store : List DbUser) (h : pinsNodup store) :
    (∀ b : UPostBody, b.name ≠ "" → b.pin ≠ "" → b.role ≠ "" →
      (∃ u ∈ store, u.pin = b.pin) →
        usersStep store (UsersOp.post b) =
          (store, { status := 409, message := "User already exists" })) ∧
    (∀ ops, pinsNodup (usersRun store ops)) := by
  constructor
  · intro b hn hp hr ⟨u, hu, hup⟩
    simp only [usersStep]
    rw [if_neg (by simp [hn, hp, hr]),
        if_pos (List.any_eq_true.2 ⟨u, hu, decide_eq_true hup⟩)]
  · intro ops
    exact pinsNodup_usersRun store ops h

/-- Witness for `usersApi_pin_unique` on a concrete store and request
sequence. -/
theorem usersApi_pin_unique_witness :
    pinsNodup [⟨"Alice", "P1", "Student", none, none⟩] ∧
    usersStep [⟨"Alice", "P1", "Student", none, none⟩]
        (UsersOp.post ⟨"Bob", "P1", "Student", none, none⟩) =
      ([⟨"Alice", "P1", "Student", none, none⟩],
       { status := 409, message := "User already exists" }) ∧
    pinsNodup (usersRun [⟨"Alice", "P1", "Student", none, none⟩]
      [UsersOp.post ⟨"Bob", "P2", "Student", none, none⟩,
       UsersOp.put (some "P1") ⟨none, some "P3", none, none, none⟩,
       UsersOp.del (some "P2")]) := by
  refine ⟨by decide, ?_, ?_⟩
  · exact (usersApi_pin_unique _ (by decide)).1 _ (by decide) (by decide)
      (by decide) ⟨⟨"Alice", "P1", "Student", none, none⟩, by decide, by decide⟩
  · exact (usersApi_pin_unique _ (by decide)).2 _

/-- C4 counterexample to the claim as stated: a POST whose pin already
exists but whose `name` is missing is rejected 400, not 409 — the
required-field check runs first. -/
theorem usersApi_post_duplicate_pin_400 :
    usersStep [⟨"Alice", "P1", "Student", none, none⟩]
        (UsersOp.post ⟨"", "P1", "Student", none, none⟩) =
      ([⟨"Alice", "P1", "Student", none, none⟩],
       { status := 400, message := "name, pin, and role are required" }) ∧
    (∃ u ∈ [(⟨"Alice", "P1", "Student", none, none⟩ : DbUser)], u.pin = "P1") ∧
    (400 : Nat) ≠ 409 := by
  exact ⟨by decide, ⟨⟨"Alice", "P1", "Student", none, none⟩, by decide, by decide⟩,
    by decide⟩

/-! ### Attendance: `api/attendance.ts` POST and the client `markAttendance`
(services.ts lines 271-312). -/

/-- A stored attendance document (`_id` elided; `timestamp` is set by the
handler, not taken from the request body). -/
structure AttRecord where
  date : String
  userId : String
  userName : String
  userPin : String
  status : String
  userAvatar : Option String
  timestamp : String
  location : Option LocationInfo

/-- POST body of `/api/attendance`.  The five required fields are plain
strings (absent and empty are both falsy for the handler's check). -/
structure AttPostBody where
  date : String
  userId : String
  userName : String
  userPin : String
  status : String
  userAvatar : Option String
  location : Option LocationInfo

/-- Response of the attendance handler: the created record or an error
status with the body's `message`. -/
inductive AttRes where
  | created (r : AttRecord)
  | err (status : Nat) (message : String)

/-- The document `Attendance.create` writes for a POST body (the handler
regenerates `timestamp` as the server's current ISO time). -/
def mkAttRecord (b : AttPostBody) (serverNowIso : String) : AttRecord :=
  { date := b.date, userId := b.userId, userName := b.userName,
    userPin := b.userPin, status := b.status, userAvatar := b.userAvatar,
    timestamp := serverNowIso, location := b.location }

/-- `api/attendance.ts` POST: 400 when a required field is missing; 409
`Attendance already marked for this user today` when a record with the same
`date` and `userPin` exists; a status outside the schema enum
`['Present','Absent']` makes `Attendance.create` throw a Mongoose
`ValidationError`, which the catch-all turns into 500; otherwise the record
is inserted and echoed with 201. -/
def attendancePost (store : List AttRecord) (b : AttPostBody)
    (serverNowIso : String) : List AttRecord × AttRes :=
  if b.date = "" ∨ b.userId = "" ∨ b.userName = "" ∨ b.userPin = "" ∨ b.status = "" then
    (store, AttRes.err 400 "date, userId, userName, userPin and status are required")
  else if store.any (fun r => r.date = b.date ∧ r.userPin = b.userPin) then
    (store, AttRes.err 409 "Attendance already marked for this user today")
  else if b.status ≠ "Present" ∧ b.status ≠ "Absent" then
    (store, AttRes.err 500 "Internal server error")
  else
    (store ++ [mkAttRecord b serverNowIso], AttRes.created (mkAttRecord b serverNowIso))

/-- `createAvatar` (services.ts 43); URI-encoding of the seed is elided. -/
def createAvatar (seed : String) : String :=
  "https://api.dicebear.com/8.x/initials/svg?seed=" ++ seed

/-- `markAttendance` (services.ts 271-312): looks the user up (a
`SUPER_ADMIN` view, so unfiltered), throws `User not found` when absent,
computes the location block from the coordinates, and POSTs a payload whose
`status` is always `'Present'` to `/api/attendance`; a non-2xx response
makes `safeFetch` throw the body's message.  Returns the new store and the
created record. -/
noncomputable def markAttendance (users : List SUser) (store : List AttRecord)
    (dateString : String) (userId : String) (coords : Option (ℝ × ℝ))
    (serverNowIso : String) : Except String (List AttRecord × AttRecord) :=
  match users.find? (fun u => u.id = userId) with
  | none => Except.error "User not found"
  | some user =>
      let body : AttPostBody :=
        { date := dateString, userId := userId, userName := user.name,
          userPin := user.pin,
          userAvatar := some (user.imageUrl.getD (createAvatar user.name)),
          status := "Present", location := some (locationOf coords) }
      match attendancePost store body serverNowIso with
      | (store2, AttRes.created r) => Except.ok (store2, r)
      | (_, AttRes.err _ msg) => Except.error msg

/-- C5 (amended): for a POST whose five required fields are present —
if the `date` and `userPin` match an existing record the handler responds
409 `Attendance already marked for this user today` and leaves the store
unchanged; otherwise, when `status` is `'Present'` or `'Absent'`, exactly
one record is inserted and echoed with 201. -/
theorem attendancePost_dedup (store : List AttRecord) (b : AttPostBody)
    (now : String) (hd : b.date ≠ "") (hu : b.userId ≠ "") (hn : b.userName ≠ "")
    (hp : b.userPin ≠ "") (hs : b.status ≠ "") :
    ((∃ r ∈ store, r.date = b.date ∧ r.userPin = b.userPin) →
      attendancePost store b now =
        (store, AttRes.err 409 "Attendance already marked for this user today")) ∧
    ((¬ ∃ r ∈ store, r.date = b.date ∧ r.userPin = b.userPin) →
      (b.status = "Present" ∨ b.status = "Absent") →
      attendancePost store b now =
        (store ++ [mkAttRecord b now], AttRes.created (mkAttRecord b now))) := by
  constructor
  · intro ⟨r, hr, hrd⟩
    simp only [attendancePost]
    rw [if_neg (by simp [hd, hu, hn, hp, hs]),
        if_pos (List.any_eq_true.2 ⟨r, hr, decide_eq_true hrd⟩)]
  · intro hno hst
    simp only [attendancePost]
    rw [if_neg (by simp [hd, hu, hn, hp, hs]),
        if_neg (by
          intro hany
          rcases List.any_eq_true.1 hany with ⟨r, hr, hrd⟩
          exact hno ⟨r, hr, of_decide_eq_true hrd⟩),
        if_neg (by rcases hst with h | h <;> simp [h])]

/-- Witness for `attendancePost_dedup`: concrete duplicate and fresh POSTs. -/
theorem attendancePost_dedup_witness :
    attendancePost [mkAttRecord ⟨"2025-01-02", "u1", "Alice", "1234", "Present", none, none⟩ "t0"]
        ⟨"2025-01-02", "u1", "Alice", "1234", "Present", none, none⟩ "t1" =
      ([mkAttRecord ⟨"2025-01-02", "u1", "Alice", "1234", "Present", none, none⟩ "t0"],
        AttRes.err 409 "Attendance already marked for this user today") ∧
    attendancePost [] ⟨"2025-01-02", "u1", "Alice", "1234", "Present", none, none⟩ "t1" =
      ([mkAttRecord ⟨"2025-01-02", "u1", "Alice", "1234", "Present", none, none⟩ "t1"],
        AttRes.created (mkAttRecord ⟨"2025-01-02", "u1", "Alice", "1234", "Present", none, none⟩ "t1")) := by
  constructor
  · exact (attendancePost_dedup _ _ _ (by decide) (by decide) (by decide)
      (by decide) (by decide)).1
      ⟨mkAttRecord ⟨"2025-01-02", "u1", "Alice", "1234", "Present", none, none⟩ "t0",
        by simp [mkAttRecord], by simp [mkAttRecord]⟩
  · exact (attendancePost_dedup _ _ _ (by decide) (by decide) (by decide)
      (by decide) (by decide)).2 (by simp) (Or.inl rfl)

/-- C5 counterexample to the claim as stated: a POST whose `date` and
`userPin` match an existing record but whose `userName` is missing responds
400, not 409 — the required-field check runs before the duplicate check. -/
theorem attendancePost_duplicate_missing_field_400 :
    attendancePost [mkAttRecord ⟨"2025-01-02", "u1", "Alice", "1234", "Present", none, none⟩ "t0"]
        ⟨"2025-01-02", "u1", "", "1234", "Present", none, none⟩ "t1" =
      ([mkAttRecord ⟨"2025-01-02", "u1", "Alice", "1234", "Present", none, none⟩ "t0"],
        AttRes.err 400 "date, userId, userName, userPin and status are required") := by
  simp [attendancePost, mkAttRecord]

/-- A stored user for concrete evaluations. -/
def demoUser : SUser :=
  { id := "u1", pin := "1234", name := "Alice", role := "STUDENT",
    college_code := none, imageUrl := some "img", access_revoked := false }

/-- A super-admin caller for concrete evaluations. -/
def adminUser : SUser :=
  { id := "a1", pin := "0000", name := "Root", role := ROLE_SUPER_ADMIN,
    college_code := none, imageUrl := none, access_revoked := false }

/-- The record `markAttendance` creates for `demoUser` with `null`
coordinates on an empty store. -/
noncomputable def nullCoordsRecord : AttRecord :=
  { date := "2025-01-02", userId := "u1", userName := "Alice",
    userPin := "1234", status := "Present", userAvatar := some "img",
    timestamp := "2025-01-02T09:00:00.000Z",
    location := some (locationOf none) }

/-- C1, evaluation at the failing input: `markAttendance` for an existing
user with `null` coordinates does create an attendance record with status
`'Present'` — the geofence result is only recorded as
`location.status = 'Off-Campus'`, never enforced. -/
theorem markAttendance_null_coords_creates_present :
    markAttendance [demoUser] [] "2025-01-02" "u1" none "2025-01-02T09:00:00.000Z" =
      Except.ok ([nullCoordsRecord], nullCoordsRecord) ∧
    nullCoordsRecord.status = "Present" ∧
    nullCoordsRecord.location = some (locationOf none) ∧
    (locationOf none).status = "Off-Campus" := by
  exact ⟨rfl, rfl, rfl, rfl⟩

/-- C8, evaluation at the failing input: the soft-delete path of
`deleteUser` always throws.  `updateUser` requests `PUT /api/users?id=...`,
but the handler selects by the `pin` query parameter and rejects a request
without one as 400 `pin required`; `safeFetch` turns that into a thrown
error, so `deleteUser` never toggles `access_revoked` and never returns
`success: true`.  The not-found and force paths do return `success: false`
unchanged, as the claim says. -/
theorem deleteUser_soft_delete_always_throws :
    deleteUser [demoUser] adminUser "u1" false =
      ([demoUser], Except.error "pin required") ∧
    (deleteUser [demoUser] adminUser "u1" false).2 ≠ Except.ok true ∧
    deleteUser [demoUser] adminUser "zz" false = ([demoUser], Except.ok false) ∧
    deleteUser [demoUser] adminUser "u1" true = ([demoUser], Except.ok false) := by
  refine ⟨rfl, ?_, rfl, rfl⟩
  intro hcontra
  simp [deleteUser, adminUser, demoUser, applyTenantFilter, updateUser,
    usersApiPut] at hcontra

/-- C6 (amended): for every non-ok response, `handleApiError` throws the
body's `error` field when it is present and non-empty, else the `message`
field when present and non-empty, else `Error {status}: {statusText}`
(likewise when the body is unparsable or parses to a falsy value);
`safeFetch` forwards that error unchanged, replaces only a network-level
`Failed to fetch` TypeError with the connectivity message, and issues
exactly one request. -/
theorem handleApiError_message_relay (r : Resp) (h : respOk r = false) :
    (∀ o e, r.body = BodyVal.jobj o → o.error = some e → e ≠ "" →
        handleApiError r = Except.error e) ∧
    (∀ o m, r.body = BodyVal.jobj o → truthyStr o.error = false →
        o.message = some m → m ≠ "" → handleApiError r = Except.error m) ∧
    (∀ o, r.body = BodyVal.jobj o → truthyStr o.error = false →
        truthyStr o.message = false →
        handleApiError r =
          Except.error ("Error " ++ toString r.status ++ ": " ++ r.statusText)) ∧
    ((r.body = BodyVal.parseFail ∨ r.body = BodyVal.jnull) →
        handleApiError r =
          Except.error ("Error " ++ toString r.status ++ ": " ++ r.statusText)) ∧
    safeFetch (FetchOutcome.resp r) = handleApiError r ∧
    (∀ m, safeFetch (FetchOutcome.netErr true m) =
        Except.error "Unable to connect to the server. Please check your internet connection.") ∧
    (∀ m, safeFetch (FetchOutcome.netErr false m) = Except.error m) ∧
    (∀ rest, safeFetchRuns (FetchOutcome.resp r :: rest) = (handleApiError r, 1)) := by
  have hne : ¬ respOk r = true := by simp [h]
  refine ⟨?_, ?_, ?_, ?_, rfl, fun m => rfl, fun m => rfl, fun rest => rfl⟩
  · intro o e hb he hne'
    simp [handleApiError, hne, errorMessageOf, hb, he, truthyStr, hne']
  · intro o m hb herr hm hne'
    have ht : truthyStr (some m) = true := by simp [truthyStr, hne']
    simp [handleApiError, hne, errorMessageOf, hb, herr, hm, ht]
  · intro o hb herr hmsg
    simp [handleApiError, hne, errorMessageOf, hb, herr, hmsg]
  · intro hb
    rcases hb with hb | hb <;> simp [handleApiError, hne, errorMessageOf, hb]

/-- A concrete 500 response whose body carries an `error` field. -/
def resp500 : Resp :=
  { status := 500, statusText := "ISE",
    body := BodyVal.jobj
      { error := some "db down", message := none, role := none,
        access_revoked := false } }

/-- A concrete 500 response whose `error` field is present but empty while
`message` is non-empty. -/
def resp500emptyErr : Resp :=
  { status := 500, statusText := "ISE",
    body := BodyVal.jobj
      { error := some "", message := some "boom", role := none,
        access_revoked := false } }

/-- Witness for `handleApiError_message_relay` on a concrete 500 response. -/
theorem handleApiError_message_relay_witness :
    respOk resp500 = false ∧
    handleApiError resp500 = Except.error "db down" ∧
    (∀ m, safeFetch (FetchOutcome.netErr true m) =
      Except.error "Unable to connect to the server. Please check your internet connection.") := by
  refine ⟨by decide, ?_, ?_⟩
  · exact (handleApiError_message_relay resp500 (by decide)).1 _ "db down" rfl rfl
      (by decide)
  · exact (handleApiError_message_relay resp500 (by decide)).2.2.2.2.2.1

/-- C6 counterexample to the claim as stated: the body's `error` field is
present (the empty string), yet `handleApiError` throws the `message` field
instead — JS truthiness skips a present-but-empty `error`. -/
theorem handleApiError_empty_error_field :
    handleApiError resp500emptyErr = Except.error "boom" ∧
    (match resp500emptyErr.body with
      | BodyVal.jobj o => o.error.isSome
      | _ => false) = true ∧
    "boom" ≠ "" := by
  exact ⟨rfl, rfl, by decide⟩

/-- C9 (amended): `login` returns `null` without throwing on a 401, and also
on an ok response whose body is a falsy `null`; every other non-ok response
throws the relayed message; for a truthy user object: it throws
`Access revoked for this user.` when `access_revoked` is set, yields the
OTP-required result iff the role is `SUPER_ADMIN`, and returns the user
otherwise. -/
theorem login_behavior (r : Resp) :
    (r.status = 401 → login (FetchOutcome.resp r) = Except.ok LoginResult.nullRes) ∧
    (r.status ≠ 401 → respOk r = false →
        login (FetchOutcome.resp r) = Except.error (errorMessageOf r)) ∧
    (∀ o, r.status ≠ 401 → respOk r = true → r.body = BodyVal.jobj o →
        ((o.access_revoked = true →
            login (FetchOutcome.resp r) = Except.error "Access revoked for this user.") ∧
         (o.access_revoked = false →
            (login (FetchOutcome.resp r) = Except.ok (LoginResult.otpRes o) ↔
              o.role = some ROLE_SUPER_ADMIN)) ∧
         (o.access_revoked = false → o.role ≠ some ROLE_SUPER_ADMIN →
            login (FetchOutcome.resp r) = Except.ok (LoginResult.userRes o)))) ∧
    (r.status ≠ 401 → respOk r = true → r.body = BodyVal.jnull →
        login (FetchOutcome.resp r) = Except.ok LoginResult.nullRes) := by
  refine ⟨?_, ?_, ?_, ?_⟩
  · intro h401
    simp [login, h401]
  · intro h401 hok
    simp [login, h401, handleApiError, hok]
  · intro o h401 hok hb
    refine ⟨?_, ?_, ?_⟩
    · intro hrev
      simp [login, h401, handleApiError, hok, hb, hrev]
    · intro hrev
      constructor
      · intro hres
        by_contra hrole
        simp [login, h401, handleApiError, hok, hb, hrev, hrole] at hres
      · intro hrole
        simp [login, h401, handleApiError, hok, hb, hrev, hrole]
    · intro hrev hrole
      simp [login, h401, handleApiError, hok, hb, hrev, hrole]
  · intro h401 hok hb
    simp [login, h401, handleApiError, hok, hb]

/-- Witness for `login_behavior` on concrete responses. -/
theorem login_behavior_witness :
    login (FetchOutcome.resp { status := 401, statusText := "Unauthorized",
                               body := BodyVal.jnull }) =
      Except.ok LoginResult.nullRes ∧
    login (FetchOutcome.resp resp500) = Except.error (errorMessageOf resp500) := by
  constructor
  · exact (login_behavior _).1 rfl
  · exact (login_behavior resp500).2.1 (by decide) (by decide)

/-- C9 counterexample to the claim as stated: an ok (200) response whose
body parses to `null` also makes `login` return `null`, so "returns null
exactly when the server responds 401" fails in the only-if direction. -/
theorem login_null_without_401 :
    login (FetchOutcome.resp { status := 200, statusText := "OK",
                               body := BodyVal.jnull }) =
      Except.ok LoginResult.nullRes ∧
    (200 : Nat) ≠ 401 := by
  exact ⟨rfl, by decide⟩

/-! ### `cogniCraftService.verifyFace` (services.ts lines 640-691) and
`_generateContent` (lines 511-526). -/

/-- The JSON verification result (`{ isMatch, quality, reason }`). -/
structure VerificationResult where
  isMatch : Bool
  quality : String
  reason : String
deriving DecidableEq

/-- The environment one `verifyFace` invocation runs against:
`aiClientState.isInitialized`, whether `aiClientState.client` is non-null,
the outcome of the reference-image preprocessing (`imageToDataUrl` may
reject), the provider call's outcome (`response.text` or a thrown error),
and `JSON.parse` on the response text (`none` = it throws). -/
structure FaceEnv where
  init : Bool
  clientPresent : Bool
  prep : Except String Unit
  callResult : Except String String
  parseVR : String → Option VerificationResult

/-- The mocked result returned when the AI client is not initialized. -/
def mockNotInit : VerificationResult :=
  { isMatch := true, quality := "GOOD",
    reason := "OK (Mocked Verification - AI Not Initialized)" }

/-- The mocked result returned from the catch block. -/
def mockAiError : VerificationResult :=
  { isMatch := true, quality := "GOOD",
    reason := "OK (Mocked Verification - AI Error)" }

/-- `_generateContent`: throws when the client is uninitialized or null
(before any provider call); otherwise makes exactly one provider call,
mapping a provider failure to a fixed message.  The second component counts
provider calls made. -/
def generateContentAttempt (env : FaceEnv) : Except String String × Nat :=
  if env.init = false ∨ env.clientPresent = false then
    (Except.error "CogniCraft AI client is not initialized.", 0)
  else
    match env.callResult with
    | Except.ok t => (Except.ok t, 1)
    | Except.error _ =>
        (Except.error "Could not generate content from the AI service. Please check your API key and network connection.", 1)

/-- `verifyFace`: returns `mockNotInit` without calling anything when the
client is uninitialized; otherwise runs preprocessing, one
`_generateContent` call and `JSON.parse` inside a try whose catch returns
`mockAiError`.  The second component counts provider calls. -/
def verifyFace (env : FaceEnv) : VerificationResult × Nat :=
  if env.init = false then (mockNotInit, 0)
  else
    match env.prep with
    | Except.error _ => (mockAiError, 0)
    | Except.ok _ =>
        match generateContentAttempt env with
        | (Except.error _, n) => (mockAiError, n)
        | (Except.ok t, n) =>
            match env.parseVR t with
            | some vr => (vr, n)
            | none => (mockAiError, n)

/-- C2: whenever the remote face match cannot be performed — the AI client
is not initialized, the client object is null, or the provider call throws —
`verifyFace` still returns (it is total by its type) a mocked success with
`isMatch = true` and `quality = 'GOOD'`; and the provider call is attempted
at most once per invocation. -/
theorem verifyFace_mock_on_failure (env : FaceEnv) :
    ((env.init = false ∨ env.clientPresent = false ∨
        (∃ e, env.callResult = Except.error e)) →
      (verifyFace env).1.isMatch = true ∧ (verifyFace env).1.quality = "GOOD") ∧
    (verifyFace env).2 ≤ 1 := by
  rcases env with ⟨i, c, p, cr, pf⟩
  constructor
  · intro h
    cases i with
    | false => simp [verifyFace, mockNotInit]
    | true =>
        cases p with
        | error e => simp [verifyFace, mockAiError]
        | ok u =>
            cases c with
            | false => simp [verifyFace, generateContentAttempt, mockAiError]
            | true =>
                cases cr with
                | error e => simp [verifyFace, generateContentAttempt, mockAiError]
                | ok t =>
                    rcases h with h | h | ⟨e, he⟩
                    · exact absurd h (by simp)
                    · exact absurd h (by simp)
                    · exact absurd he (by simp)
  · cases i with
    | false => simp [verifyFace]
    | true =>
        cases p with
        | error e => simp [verifyFace]
        | ok u =>
            cases c with
            | false => simp [verifyFace, generateContentAttempt]
            | true =>
                cases cr with
                | error e => simp [verifyFace, generateContentAttempt]
                | ok t =>
                    cases hpf : pf t with
                    | some vr => simp [verifyFace, generateContentAttempt, hpf]
                    | none => simp [verifyFace, generateContentAttempt, hpf]

/-- Witness for `verifyFace_mock_on_failure` on a concrete failing
environment (client uninitialized, provider would throw). -/
theorem verifyFace_mock_on_failure_witness :
    ((FaceEnv.mk false false (Except.ok ()) (Except.error "boom")
        (fun _ => none)).init = false ∨
      (FaceEnv.mk false false (Except.ok ()) (Except.error "boom")
        (fun _ => none)).clientPresent = false ∨
      (∃ e, (FaceEnv.mk false false (Except.ok ()) (Except.error "boom")
        (fun _ => none)).callResult = Except.error e)) ∧
    (verifyFace (FaceEnv.mk false false (Except.ok ()) (Except.error "boom")
        (fun _ => none))).1.isMatch = true ∧
    (verifyFace (FaceEnv.mk false false (Except.ok ()) (Except.error "boom")
        (fun _ => none))).1.quality = "GOOD" ∧
    (verifyFace (FaceEnv.mk false false (Except.ok ()) (Except.error "boom")
        (fun _ => none))).2 ≤ 1 := by
  have h := verifyFace_mock_on_failure
    (FaceEnv.mk false false (Except.ok ()) (Except.error "boom") (fun _ => none))
  exact ⟨Or.inl rfl, (h.1 (Or.inl rfl)).1, (h.1 (Or.inl rfl)).2, h.2⟩

/-! ### MockStorage-backed applications
(services.ts lines 7-35, 391-410): `submitApplication` writes the
`MOCK_APPLICATIONS` key of the client-side `MockStorage`,
`getApplicationsByPin` reads it. -/

/-- `ApplicationStatus.PENDING` of the frontend enum (`types.ts`, not part
of the sources; used as an opaque tag). -/
def APPLICATION_STATUS_PENDING : String := "PENDING"

/-- An application record (the `type` field is `appType` here; `payload` is
kept opaque as a string). -/
structure Application where
  id : String
  pin : String
  userId : String
  appType : String
  payload : String
  status : String
  created_at : String
deriving DecidableEq

/-- The application `submitApplication` builds: id `app-${Date.now()}`,
pending status, creation time. -/
def mkApplication (pin ty payload uId : String) (nowMs : Nat) (nowIso : String) :
    Application :=
  { id := "app-" ++ toString nowMs, pin := pin, userId := uId,
    appType := ty, payload := payload, status := APPLICATION_STATUS_PENDING,
    created_at := nowIso }

/-- `submitApplication` (services.ts 401-410): resolves the pin against the
backend users, throws when absent, unshifts the new application onto the
`MOCK_APPLICATIONS` list in client-side storage and returns it. -/
def submitApplication (storageApps : List Application) (users : List SUser)
    (pin ty payload : String) (nowMs : Nat) (nowIso : String) :
    Except String (List Application × Application) :=
  match users.find? (fun u => u.pin = pin) with
  | none => Except.error "User with given PIN not found."
  | some u =>
      Except.ok (mkApplication pin ty payload u.id nowMs nowIso :: storageApps,
        mkApplication pin ty payload u.id nowMs nowIso)

/-- `getApplicationsByPin` (services.ts 391-394): reads `MOCK_APPLICATIONS`
from client-side storage and filters by pin. -/
def getApplicationsByPin (storageApps : List Application) (pin : String) :
    List Application :=
  storageApps.filter (fun a => a.pin = pin)

/-- C10 (amended): backend-connected operations are plain request/response
calls, but the mocked features do share client-side mutable state:
`submitApplication` prepends to the `MOCK_APPLICATIONS` store and a later
`getApplicationsByPin` for that pin observes exactly the written
application, so its result depends on which operations ran before it. -/
theorem submitApplication_read_back (storageApps : List Application)
    (users : List SUser) (pin ty payload : String) (ms : Nat) (iso : String)
    (u : SUser) (hu : users.find? (fun v => v.pin = pin) = some u) :
    submitApplication storageApps users pin ty payload ms iso =
      Except.ok (mkApplication pin ty payload u.id ms iso :: storageApps,
        mkApplication pin ty payload u.id ms iso) ∧
    getApplicationsByPin (mkApplication pin ty payload u.id ms iso :: storageApps) pin =
      mkApplication pin ty payload u.id ms iso ::
        getApplicationsByPin storageApps pin := by
  constructor
  · simp [submitApplication, hu]
  · simp [getApplicationsByPin, mkApplication]

/-- Witness for `submitApplication_read_back` on concrete data. -/
theorem submitApplication_read_back_witness :
    [demoUser].find? (fun v => v.pin = "1234") = some demoUser ∧
    submitApplication [] [demoUser] "1234" "LEAVE" "p" 5 "T" =
      Except.ok ([mkApplication "1234" "LEAVE" "p" "u1" 5 "T"],
        mkApplication "1234" "LEAVE" "p" "u1" 5 "T") ∧
    getApplicationsByPin [mkApplication "1234" "LEAVE" "p" "u1" 5 "T"] "1234" =
      [mkApplication "1234" "LEAVE" "p" "u1" 5 "T"] := by
  have h := submitApplication_read_back [] [demoUser] "1234" "LEAVE" "p" 5 "T"
    demoUser (by decide)
  exact ⟨by decide, h.1, by simpa [demoUser] using h.2⟩

/-- C10 counterexample to the claim as stated: the result of
`getApplicationsByPin` differs according to whether `submitApplication` ran
before it — client-side state written by one operation is read by another. -/
theorem getApplicationsByPin_depends_on_history :
    getApplicationsByPin [mkApplication "1234" "LEAVE" "p" "u1" 5 "T"] "1234" ≠
      getApplicationsByPin [] "1234" ∧
    submitApplication [] [demoUser] "1234" "LEAVE" "p" 5 "T" =
      Except.ok ([mkApplication "1234" "LEAVE" "p" "u1" 5 "T"],
        mkApplication "1234" "LEAVE" "p" "u1" 5 "T") := by
  exact ⟨by decide, rfl⟩
